import Mathlib

/-!
Shallow embedding of `src/main.rs` of the watcher repository: a directory
watcher that debounces filesystem events through a sliding `EventBuffer`
(window + quiet period), filters events by kind and path extension, and on
a trigger spawns a shell command, draining its stdout/stderr on two threads
that are joined before the child is waited on.

Timestamps (`std::time::Instant`) are modelled as natural numbers of
milliseconds; `Instant::duration_since` saturates at zero, which is exactly
natural-number subtraction. Fallible operations (`spawn`, event delivery,
argument parsing) are modelled with `Except`/`Option`.
-/

namespace Watcher

/-! ## EventBuffer (src/main.rs lines 27-66)

`events: VecDeque<Instant>` is modelled as a `List Nat` whose head is the
front of the deque (the oldest timestamp) and whose last element is the back
(the most recent timestamp). -/

structure EventBuffer where
  events : List Nat
  window : Nat
deriving DecidableEq

def EventBuffer.new (window : Nat) : EventBuffer :=
  ⟨[], window⟩

/-- The `while let Some(time) = self.events.front()` pruning loop of
`add_event`: pop front entries while `now.duration_since(*time) > window`,
stopping at the first entry inside the window. -/
def pruneOld (now window : Nat) : List Nat → List Nat
  | [] => []
  | t :: rest => if now - t > window then pruneOld now window rest else t :: rest

/-- `EventBuffer::add_event` (lines 41-51): prune old events, then
`push_back(now)`. -/
def EventBuffer.add_event (b : EventBuffer) (now : Nat) : EventBuffer :=
  { b with events := pruneOld now b.window b.events ++ [now] }

/-- `EventBuffer::should_trigger` (lines 53-61). The Rust code reads
`Instant::now()` internally; here the current instant is the explicit
parameter `now`. `self.events.back()` is `List.getLast?`. -/
def EventBuffer.should_trigger (b : EventBuffer) (now minQuietPeriod : Nat) : Bool :=
  match b.events.getLast? with
  | some lastEvent => decide (now - lastEvent ≥ minQuietPeriod) && !b.events.isEmpty
  | none => false

/-- `EventBuffer::clear` (lines 63-65). -/
def EventBuffer.clear (b : EventBuffer) : EventBuffer :=
  { b with events := [] }

/-! ## Event kinds (the `notify` crate's `EventKind`, matched at lines 88-97) -/

inductive AccessMode
  | any | execute | read | write | other
deriving DecidableEq

inductive AccessKind
  | any | read | openMode (m : AccessMode) | closeMode (m : AccessMode) | other
deriving DecidableEq

inductive CreateKind
  | any | file | folder | other
deriving DecidableEq

inductive DataChange
  | any | size | content | other
deriving DecidableEq

inductive MetadataKind
  | any | accessTime | writeTime | permissions | ownership | extended | other
deriving DecidableEq

/-- `notify::event::RenameMode`; the Rust variants are `Any, To, From, Both,
Other` (`From` is a Lean keyword, so it is spelled `frm`). -/
inductive RenameMode
  | any | to | frm | both | other
deriving DecidableEq

inductive ModifyKind
  | any | data (c : DataChange) | metadata (m : MetadataKind) | name (r : RenameMode) | other
deriving DecidableEq

inductive RemoveKind
  | any | file | folder | other
deriving DecidableEq

inductive EventKind
  | any
  | access (a : AccessKind)
  | create (c : CreateKind)
  | modify (m : ModifyKind)
  | remove (r : RemoveKind)
  | other
deriving DecidableEq

/-- `is_relevant_event` (lines 88-97): the `matches!` over
`Create(File) | Modify(Data(_)) | Modify(Name(_)) | Remove(File)`. -/
def is_relevant_event : EventKind → Bool
  | .create .file => true
  | .modify (.data _) => true
  | .modify (.name _) => true
  | .remove .file => true
  | _ => false

/-! ## Extension filter (lines 99-108)

`std::path::Path::extension` is modelled on `List Char`:
`file_name` is the last normal component of the `/`-separated path
(empty and `.` components are skipped, `..` yields no file name), and the
extension is the part of the file name after its last `.`, where a dot at
position 0 does not count (so `.gitignore` has no extension). -/

def splitOnSlash : List Char → List (List Char)
  | [] => [[]]
  | '/' :: rest => [] :: splitOnSlash rest
  | c :: rest =>
    match splitOnSlash rest with
    | [] => [[c]]
    | comp :: comps => (c :: comp) :: comps

def fileName (p : List Char) : Option (List Char) :=
  match ((splitOnSlash p).filter (fun c => decide (c ≠ [] ∧ c ≠ ['.']))).getLast? with
  | some c => if c = ['.', '.'] then none else some c
  | none => none

/-- The characters after the last `.` of the list, if any dot occurs. -/
def extAfterLastDot : List Char → Option (List Char)
  | [] => none
  | '.' :: rest =>
    match extAfterLastDot rest with
    | some e => some e
    | none => some rest
  | _ :: rest => extAfterLastDot rest

/-- Rust's `split_file_at_dot` semantics: no extension for `..` or when the
only dot is the leading character of the file name. -/
def fileExtension (f : List Char) : Option (List Char) :=
  if f = ['.', '.'] then none
  else
    match f with
    | [] => none
    | _ :: rest => extAfterLastDot rest

def pathExtension (p : List Char) : Option (List Char) :=
  match fileName p with
  | some f => fileExtension f
  | none => none

/-- `has_matching_extension` (lines 99-108): empty filter list matches every
path; otherwise `path.extension()` must equal some entry (`to_str` never
fails in this model, since paths are unicode strings). -/
def has_matching_extension (path : String) (extensions : List String) : Bool :=
  if extensions.isEmpty then true
  else
    match pathExtension path.data with
    | some ext => extensions.any (fun e => e.data == ext)
    | none => false

/-! ## Events and the orchestrator loop (lines 120-235) -/

/-- `notify::Event` as consumed by the loop: its kind and its paths. -/
structure Event where
  kind : EventKind
  paths : List String

/-- The behaviour of one spawned child process: the full line streams of its
two pipes and the result of `child.wait()` (exit code, or a wait error). -/
structure Child where
  stdoutLines : List String
  stderrLines : List String
  waitResult : Except String Int

/-- `process_output` (lines 110-118): each stderr line is wrapped in red
ANSI codes (`eprintln!("\x1b[31m{}\x1b[0m", line)`), stdout lines are
printed unchanged. Returns the printed lines in order. -/
def process_output (lines : List String) (is_stderr : Bool) : List String :=
  lines.map (fun line => if is_stderr then "\x1b[31m" ++ line ++ "\x1b[0m" else line)

/-- Actions of one command invocation, in program order. -/
inductive SupAction
  | spawnChild
  | spawnDrain (onStderr : Bool)
  | joinDrain (onStderr : Bool)
  | waitChild
deriving DecidableEq, BEq

/-- The sequence of supervision actions performed by the trigger branch
(lines 174-206): on a successful spawn the two drain threads are spawned,
both joined, and only then is the child waited on; on a spawn failure the
`?` operator short-circuits after the spawn attempt, so no drain happens. -/
def invocationTrace : Except String Child → List SupAction
  | .error _ => [.spawnChild]
  | .ok _ => [.spawnChild, .spawnDrain false, .spawnDrain true,
              .joinDrain false, .joinDrain true, .waitChild]

/-- The event-handling arm of the loop (lines 152-166): skip if the kind is
irrelevant, skip if no path passes the extension filter, otherwise record
the current instant in the buffer. -/
def processEvent (exts : List String) (e : Event) (b : EventBuffer) (now : Nat) : EventBuffer :=
  if !is_relevant_event e.kind then b
  else if !(e.paths.any (fun p => has_matching_extension p exts)) then b
  else b.add_event now

/-- Result of `rx.recv_timeout` (line 151). -/
inductive RecvResult
  | ok (e : Event)
  | timeout
  | disconnected

/-- What one iteration of the `loop` does to the control flow of `main`. -/
inductive StepOutcome
  | continueLoop (b : EventBuffer)
  | exitError (e : String)
  | exitSuccess
deriving DecidableEq

def StepOutcome.isContinue : StepOutcome → Bool
  | .continueLoop _ => true
  | _ => false

/-- One iteration of the watch loop (lines 150-232).
* `Ok(event)`: classify, filter, record; the loop continues.
* `Timeout`: if `should_trigger`, run the command. A failed spawn is
  propagated by `?`, making `main` return `Err` (the process exits with a
  non-zero code). A successful run — whatever `child.wait()` returned — is
  reported and the buffer cleared, and the loop continues.
* `Disconnected`: `break`, after which `main` returns `Ok(())`. -/
def loopStep (exts : List String) (b : EventBuffer) (now q : Nat)
    (msg : RecvResult) (spawnResult : Except String Child) : StepOutcome :=
  match msg with
  | .ok e => .continueLoop (processEvent exts e b now)
  | .timeout =>
    if b.should_trigger now q then
      match spawnResult with
      | .error err => .exitError err
      | .ok _ => .continueLoop b.clear
    else .continueLoop b
  | .disconnected => .exitSuccess

/-- The process exit code each loop outcome leads to: `main` returning
`Err` makes the Rust runtime exit with code 1, returning `Ok(())` exits
with code 0; `none` while the loop is still running. -/
def exitCodeOf : StepOutcome → Option Nat
  | .continueLoop _ => none
  | .exitError _ => some 1
  | .exitSuccess => some 0

/-- The watcher callback (lines 126-130): `if let Ok(event) = res { tx.send(event) }`.
State is the queued events and the logged error messages; an `Err` delivery
leaves both untouched — it is neither forwarded nor logged. -/
def watcherCallback (res : Except String Event) (queue : List Event) (log : List String) :
    List Event × List String :=
  match res with
  | .ok event => (queue ++ [event], log)
  | .error _ => (queue, log)

/-! ## Command-line interface (lines 11-25)

`clap` derive: `--directory` and `--command` are required arguments (parsing
fails with a non-zero exit when either is absent); their values are
arbitrary strings — clap performs no non-emptiness validation, so an empty
string is accepted. `--extensions` is optional (defaults to the empty
list). -/

structure Cli where
  directory : String
  command : String
  extensions : List String
deriving DecidableEq

def parseCli (directory command : Option String) (extensions : List String) :
    Except String Cli :=
  match directory, command with
  | some d, some c => .ok ⟨d, c, extensions⟩
  | none, _ => .error "missing required argument: --directory"
  | _, none => .error "missing required argument: --command"

/-- Does startup fail (process exits before any watching begins)? -/
def startupFails (directory command : Option String) (extensions : List String) : Bool :=
  match parseCli directory command extensions with
  | .error _ => true
  | .ok _ => false

/-- The buffer of the worked debounce example: an empty buffer with a
1000 ms window (line 147) after events recorded at t = 0, 150 and 300 ms. -/
def demoBuffer : EventBuffer :=
  (((EventBuffer.new 1000).add_event 0).add_event 150).add_event 300

/-! ## Helper lemmas -/

/-- Every element surviving the pruning loop of `add_event` is within
`window` of `now`, provided the deque was sorted oldest-first (which the
loop's early `break` relies on). -/
theorem pruneOld_mem_bound (now window : Nat) :
    ∀ l : List Nat, l.Sorted (· ≤ ·) → ∀ t ∈ pruneOld now window l, now - t ≤ window := by
  intro l
  induction l with
  | nil => intro _ t ht; simp [pruneOld] at ht
  | cons a rest ih =>
    intro hs t ht
    rw [List.sorted_cons] at hs
    by_cases hcond : now - a > window
    · simp only [pruneOld] at ht
      rw [if_pos hcond] at ht
      exact ih hs.2 t ht
    · simp only [pruneOld] at ht
      rw [if_neg hcond] at ht
      rcases List.mem_cons.mp ht with h1 | h2
      · subst h1; omega
      · have hat : a ≤ t := hs.1 t h2
        omega

/-! ## Claim theorems -/

/-- Claim C1: `should_trigger` returns true iff the window is non-empty and
the elapsed time from the most recently recorded event (the back of the
deque) to `now` is at least the quiet period; in the worked example with
events at 0, 150 and 300 ms and a 500 ms quiet period it is false at 600 ms
and true at 800 ms. -/
theorem should_trigger_spec :
    (∀ (b : EventBuffer) (now q : Nat),
      b.should_trigger now q = true ↔
        ∃ last, b.events.getLast? = some last ∧ q ≤ now - last) ∧
    demoBuffer.events = [0, 150, 300] ∧
    demoBuffer.should_trigger 600 500 = false ∧
    demoBuffer.should_trigger 800 500 = true := by
  refine ⟨?_, by decide, by decide, by decide⟩
  intro b now q
  cases h : b.events.getLast? with
  | none => simp [EventBuffer.should_trigger, h]
  | some last =>
    have hfalse : b.events.isEmpty = false := by
      cases hev : b.events
      · rw [hev] at h; simp at h
      · rfl
    simp [EventBuffer.should_trigger, h, hfalse]

/-- Claim C6: `is_relevant_event` is true exactly for file creation, data
modification, name (rename) modification and file removal, and false for
folder create/remove, access events, metadata-only modifications and all
unrecognized kinds. -/
theorem is_relevant_event_spec :
    (∀ k, is_relevant_event k = true ↔
      (k = .create .file ∨ (∃ d, k = .modify (.data d)) ∨
        (∃ r, k = .modify (.name r)) ∨ k = .remove .file)) ∧
    is_relevant_event (.create .folder) = false ∧
    is_relevant_event (.remove .folder) = false ∧
    (∀ a, is_relevant_event (.access a) = false) ∧
    (∀ m, is_relevant_event (.modify (.metadata m)) = false) ∧
    is_relevant_event .any = false ∧
    is_relevant_event .other = false ∧
    is_relevant_event (.create .any) = false ∧
    is_relevant_event (.create .other) = false ∧
    is_relevant_event (.modify .any) = false ∧
    is_relevant_event (.modify .other) = false ∧
    is_relevant_event (.remove .any) = false ∧
    is_relevant_event (.remove .other) = false := by
  refine ⟨?_, rfl, rfl, fun a => rfl, fun m => rfl, rfl, rfl, rfl, rfl, rfl, rfl, rfl, rfl⟩
  intro k
  cases k with
  | any => simp [is_relevant_event]
  | access a => simp [is_relevant_event]
  | create c => cases c <;> simp [is_relevant_event]
  | modify m => cases m <;> simp [is_relevant_event]
  | remove r => cases r <;> simp [is_relevant_event]
  | other => simp [is_relevant_event]

/-- Claim C5: with an empty extension list `has_matching_extension` accepts
every path; with a non-empty list it accepts exactly the paths whose final
extension component equals (case-sensitively, without the dot) some entry;
concrete cases: `["rs"]` accepts `src/main.rs` but rejects
`src/main.rs.bak` and `README`, and extensionless paths never match a
non-empty list. -/
theorem has_matching_extension_spec :
    (∀ (p : String) (exts : List String),
      has_matching_extension p exts = true ↔
        (exts = [] ∨ ∃ e ∈ exts, pathExtension p.data = some e.data)) ∧
    has_matching_extension "src/main.rs" ["rs"] = true ∧
    has_matching_extension "src/main.rs.bak" ["rs"] = false ∧
    has_matching_extension "README" ["rs"] = false ∧
    has_matching_extension "README" [] = true ∧
    has_matching_extension "" [] = true ∧
    pathExtension (String.data "README") = none ∧
    has_matching_extension ".gitignore" ["gitignore"] = false := by
  refine ⟨?_, by decide, by decide, by decide, by decide, by decide, by decide, by decide⟩
  intro p exts
  cases he : exts.isEmpty with
  | true =>
    have h0 : exts = [] := by simpa using he
    simp [has_matching_extension, h0]
  | false =>
    have hne : exts ≠ [] := by intro h0; rw [h0] at he; simp at he
    cases hpe : pathExtension p.data with
    | none => simp [has_matching_extension, he, hpe, hne]
    | some ext =>
      have hval : has_matching_extension p exts = exts.any (fun e => e.data == ext) := by
        simp [has_matching_extension, he, hpe]
      rw [hval]
      constructor
      · intro hany
        rcases List.any_eq_true.mp hany with ⟨e, hmem, hbeq⟩
        exact Or.inr ⟨e, hmem, congrArg some (eq_of_beq hbeq).symm⟩
      · intro hor
        rcases hor with h0 | ⟨e, hmem, hsome⟩
        · exact absurd h0 hne
        · exact List.any_eq_true.mpr
            ⟨e, hmem, beq_iff_eq.mpr (Option.some.inj hsome).symm⟩

/-- Claim C7: starting from a buffer whose timestamps are sorted
oldest-first and all at most `now`, `add_event now` leaves every stored
timestamp within `window` of `now`, a non-empty buffer, and `now` as the
most recent (back) entry. -/
theorem add_event_window_invariant (b : EventBuffer) (now : Nat)
    (hs : b.events.Sorted (· ≤ ·)) (hle : ∀ t ∈ b.events, t ≤ now) :
    (∀ t ∈ (b.add_event now).events, now - t ≤ b.window) ∧
    (b.add_event now).events ≠ [] ∧
    (b.add_event now).events.getLast? = some now := by
  refine ⟨?_, ?_, ?_⟩
  · intro t ht
    simp only [EventBuffer.add_event] at ht
    rcases List.mem_append.mp ht with h1 | h2
    · exact pruneOld_mem_bound now b.window b.events hs t h1
    · have h2' : t = now := by simpa using h2
      subst h2'; omega
  · simp [EventBuffer.add_event]
  · simp [EventBuffer.add_event]

/-- Witness for `add_event_window_invariant`: the buffer `[0, 600]` with a
1000 ms window, to which 1500 is added — the entry 0 is pruned, 600 stays,
1500 becomes the back entry. -/
theorem add_event_window_invariant_witness :
    ((⟨[0, 600], 1000⟩ : EventBuffer).events.Sorted (· ≤ ·)) ∧
    (∀ t ∈ (⟨[0, 600], 1000⟩ : EventBuffer).events, t ≤ 1500) ∧
    ((∀ t ∈ ((⟨[0, 600], 1000⟩ : EventBuffer).add_event 1500).events,
        1500 - t ≤ (⟨[0, 600], 1000⟩ : EventBuffer).window) ∧
      ((⟨[0, 600], 1000⟩ : EventBuffer).add_event 1500).events ≠ [] ∧
      ((⟨[0, 600], 1000⟩ : EventBuffer).add_event 1500).events.getLast? = some 1500) :=
  ⟨by decide, by decide,
    add_event_window_invariant ⟨[0, 600], 1000⟩ 1500 (by decide) (by decide)⟩

/-- Claim C10: an incoming event whose `paths` sequence is empty is never
recorded in the debouncer, for every extension list (including the empty
wildcard list), because path matching is `Iterator::any` over the event's
paths, which is false on an empty sequence. -/
theorem empty_paths_never_recorded :
    ∀ (exts : List String) (k : EventKind) (b : EventBuffer) (now : Nat),
      processEvent exts { kind := k, paths := [] } b now = b := by
  intro exts k b now
  cases hr : is_relevant_event k <;> simp [processEvent, hr]

/-- Claim C3 (trace model): on a successful spawn, both drain joins occur,
and each occurs strictly before the wait on child termination; moreover each
drain processes its stream to end-of-stream (every line of the child's
stdout and stderr is printed). -/
theorem drain_join_before_wait :
    ∀ c : Child,
      ((invocationTrace (.ok c)).indexOf (.joinDrain false) <
        (invocationTrace (.ok c)).indexOf .waitChild) ∧
      ((invocationTrace (.ok c)).indexOf (.joinDrain true) <
        (invocationTrace (.ok c)).indexOf .waitChild) ∧
      (SupAction.joinDrain false) ∈ invocationTrace (.ok c) ∧
      (SupAction.joinDrain true) ∈ invocationTrace (.ok c) ∧
      SupAction.waitChild ∈ invocationTrace (.ok c) ∧
      (process_output c.stdoutLines false).length = c.stdoutLines.length ∧
      (process_output c.stderrLines true).length = c.stderrLines.length := by
  intro c
  refine ⟨?_, ?_, ?_, ?_, ?_, ?_, ?_⟩
  · simp only [invocationTrace]; decide
  · simp only [invocationTrace]; decide
  · simp [invocationTrace]
  · simp [invocationTrace]
  · simp [invocationTrace]
  · simp [process_output]
  · simp [process_output]

/-- Counterexample to claim C2: with a pending trigger and a spawn failure,
one loop iteration does not continue the loop — it makes `main` return the
error (the `?` on `.spawn()`), so the process exits. -/
theorem spawn_failure_exits_loop_counterexample :
    (loopStep [] ⟨[0], 1000⟩ 600 500 .timeout
      (.error "No such file or directory")).isContinue = false ∧
    loopStep [] ⟨[0], 1000⟩ 600 500 .timeout (.error "No such file or directory") =
      .exitError "No such file or directory" := by
  exact ⟨rfl, rfl⟩

/-- Amended claim C2: a spawn failure short-circuits without draining any
pipe (the invocation trace stops after the spawn attempt), and instead of
continuing the watch loop it propagates out of `main`, exiting the process
with a non-zero code. -/
theorem spawn_failure_propagates (exts : List String) (b : EventBuffer) (now q : Nat)
    (e : String) (h : b.should_trigger now q = true) :
    loopStep exts b now q .timeout (.error e) = .exitError e ∧
    exitCodeOf (loopStep exts b now q .timeout (.error e)) = some 1 ∧
    invocationTrace (Except.error e) = [.spawnChild] := by
  simp [loopStep, h, exitCodeOf, invocationTrace]

/-- Witness for `spawn_failure_propagates` at a concrete pending buffer and
spawn error. -/
theorem spawn_failure_propagates_witness :
    ((⟨[0], 1000⟩ : EventBuffer).should_trigger 600 500 = true) ∧
    (loopStep ["rs"] ⟨[0], 1000⟩ 600 500 .timeout (.error "permission denied") =
        .exitError "permission denied" ∧
      exitCodeOf (loopStep ["rs"] ⟨[0], 1000⟩ 600 500 .timeout
        (.error "permission denied")) = some 1 ∧
      invocationTrace (Except.error "permission denied") = [.spawnChild]) :=
  ⟨by decide,
    spawn_failure_propagates ["rs"] ⟨[0], 1000⟩ 600 500 "permission denied" (by decide)⟩

/-- Counterexample to claim C4: on watch-source disconnection the loop
breaks and `main` returns `Ok(())`, so the process exits with code 0, not a
non-zero error code. -/
theorem disconnect_exit_code_counterexample :
    loopStep [] (EventBuffer.new 1000) 0 500 .disconnected (.error "gone") =
      .exitSuccess ∧
    exitCodeOf .exitSuccess = some 0 := by
  exact ⟨rfl, rfl⟩

/-- Amended claim C4: on watch-source disconnection the loop terminates
gracefully (a plain `break`, no panic) in every state, and the process
exits with the success code 0 since `main` returns `Ok(())`. -/
theorem disconnect_graceful_exit_zero :
    ∀ (exts : List String) (b : EventBuffer) (now q : Nat) (sr : Except String Child),
      loopStep exts b now q .disconnected sr = .exitSuccess ∧
      exitCodeOf (loopStep exts b now q .disconnected sr) = some 0 := by
  intro exts b now q sr
  exact ⟨rfl, rfl⟩

/-- Counterexample to claim C8: an empty command string is accepted by
argument parsing — startup succeeds and watching begins — rather than
causing immediate startup failure. -/
theorem empty_command_accepted_counterexample :
    startupFails (some ".") (some "") [] = false ∧
    parseCli (some ".") (some "") [] = .ok ⟨".", "", []⟩ := by
  exact ⟨rfl, rfl⟩

/-- Amended claim C8: a command specification missing the required command
(or directory) argument fails at startup before any watching begins, but an
empty command string is accepted: parsing succeeds with the empty string
and watching starts. -/
theorem parse_cli_spec :
    (∀ (d : Option String) (exts : List String), startupFails d none exts = true) ∧
    (∀ (c : Option String) (exts : List String), startupFails none c exts = true) ∧
    (∀ (d c : String) (exts : List String),
      parseCli (some d) (some c) exts = .ok ⟨d, c, exts⟩ ∧
      startupFails (some d) (some c) exts = false) := by
  refine ⟨?_, ?_, ?_⟩
  · intro d exts; cases d <;> rfl
  · intro c exts; cases c <;> rfl
  · intro d c exts; exact ⟨rfl, rfl⟩

/-- Counterexample to claim C9: a failed event delivery is silently
discarded by the watcher callback — nothing is logged and nothing is
forwarded to the loop — contradicting "the error is logged ... no such
error is silently dropped". -/
theorem transient_error_dropped_counterexample :
    watcherCallback (.error "transient delivery failure") [] [] = ([], []) := by
  exact rfl

/-- Amended claim C9: a transient watch-source error is silently ignored by
the watcher callback (`if let Ok(event) = res`): the queue and the log are
left unchanged, so the loop continues unaffected but the error is never
logged; successful deliveries are forwarded. -/
theorem watcher_callback_spec :
    (∀ (e : String) (queue : List Event) (log : List String),
      watcherCallback (.error e) queue log = (queue, log)) ∧
    (∀ (ev : Event) (queue : List Event) (log : List String),
      watcherCallback (.ok ev) queue log = (queue ++ [ev], log)) := by
  exact ⟨fun e q l => rfl, fun ev q l => rfl⟩

end Watcher
